import Mathlib

/-!
Verification development for the uhand-controller repository: a BLE robotic
glove controller.  We give a shallow embedding of the command codec
(`set_servo_angle`, `set_all_servos_batch`, `set_all_servos_angle`,
`_send_command` framing), the endpoint resolver inside `connect`, the
session-controller state machine (`connect` / `disconnect` / send gating) of
`src/glove_controller.py` (and, where it differs, `src/main_bleak.py`), and
the timed replay loop of `src/main.py`.  Machine integers are modelled as
`Int`/`Nat` (Python integers are unbounded); the recorded normalized finger
values are modelled as rationals.
-/

namespace Glove

/-! ## Python decimal formatting (`str(n)` for an `int`) -/

/-- Decimal formatting loop: peel the last digit of `n` onto `acc`.  Models
how Python renders a positive integer in decimal.  The first argument is a
step budget making the recursion structural; a budget of `n` is always
enough, since a number has no more decimal digits than its own value. -/
def natDecAux : Nat → Nat → List Char → List Char
  | 0, _, acc => acc
  | fuel + 1, n, acc =>
    if n = 0 then acc
    else natDecAux fuel (n / 10) (Char.ofNat (48 + n % 10) :: acc)

/-- Decimal representation of a natural number, as Python's `str`. -/
def natDec (n : Nat) : List Char :=
  if n = 0 then [Char.ofNat 48] else natDecAux n n []

/-- Decimal representation of a Python `int` (possibly negative). -/
def pyIntStr (n : Int) : List Char :=
  if n < 0 then Char.ofNat 45 :: natDec n.natAbs else natDec n.toNat

/-! ## The `_send_command` framing of `glove_controller.py`

`_send_command` appends the `$` delimiter when the payload does not already
end with it, then transmits the UTF-8 encoding of the resulting text. -/

/-- `if not user_input.endswith("$"): user_input += "$"`. -/
def appendDelim (s : List Char) : List Char :=
  if s.getLast? = some '$' then s else s ++ ['$']

/-! ## UTF-8 at the transport boundary

`_send_command` transmits `text.encode("utf-8")`; `read_data` interprets
received bytes with `bytes.decode("utf-8", errors="ignore")`, a lossy decode
that silently drops bytes that do not form valid UTF-8. -/

/-- UTF-8 encoding of a single scalar value (as Python's `str.encode`). -/
def utf8EncodeChar (c : Char) : List Nat :=
  let n := c.toNat
  if n < 128 then [n]
  else if n < 2048 then [192 + n / 64, 128 + n % 64]
  else if n < 65536 then [224 + n / 4096, 128 + (n / 64) % 64, 128 + n % 64]
  else [240 + n / 262144, 128 + (n / 4096) % 64, 128 + (n / 64) % 64, 128 + n % 64]

/-- UTF-8 encoding of a text, byte list. -/
def utf8EncodeList (s : List Char) : List Nat :=
  s.flatMap utf8EncodeChar

/-- Is `b` a UTF-8 continuation byte (`0x80`–`0xBF`)? -/
def contByte (b : Nat) : Bool :=
  128 ≤ b && b < 192

/-- Lossy UTF-8 decoding loop, modelling Python's
`bytes.decode("utf-8", errors="ignore")`: well-formed sequences decode to
their scalar value, ill-formed bytes are skipped.  The first argument is a
step budget making the recursion structural; every step consumes at least
one byte, so a budget equal to the byte count is always enough. -/
def utf8DecodeLoop : Nat → List Nat → List Char
  | 0, _ => []
  | _ + 1, [] => []
  | fuel + 1, b :: bs =>
    if b < 128 then Char.ofNat b :: utf8DecodeLoop fuel bs
    else if 194 ≤ b && b ≤ 223 then
      match bs with
      | [] => []
      | b2 :: bs2 =>
        if contByte b2 then Char.ofNat ((b - 192) * 64 + (b2 - 128)) :: utf8DecodeLoop fuel bs2
        else utf8DecodeLoop fuel (b2 :: bs2)
    else if 224 ≤ b && b ≤ 239 then
      match bs with
      | [] => []
      | [b2] => utf8DecodeLoop fuel [b2]
      | b2 :: b3 :: bs3 =>
        if contByte b2 && contByte b3 then
          let n := (b - 224) * 4096 + (b2 - 128) * 64 + (b3 - 128)
          if 2048 ≤ n && (n < 55296 || 57344 ≤ n) then
            Char.ofNat n :: utf8DecodeLoop fuel bs3
          else utf8DecodeLoop fuel (b2 :: b3 :: bs3)
        else utf8DecodeLoop fuel (b2 :: b3 :: bs3)
    else if 240 ≤ b && b ≤ 244 then
      match bs with
      | [] => []
      | [b2] => utf8DecodeLoop fuel [b2]
      | [b2, b3] => utf8DecodeLoop fuel [b2, b3]
      | b2 :: b3 :: b4 :: bs4 =>
        if contByte b2 && contByte b3 && contByte b4 then
          let n := (b - 240) * 262144 + (b2 - 128) * 4096 + (b3 - 128) * 64 + (b4 - 128)
          if 65536 ≤ n && n ≤ 1114111 then
            Char.ofNat n :: utf8DecodeLoop fuel bs4
          else utf8DecodeLoop fuel (b2 :: b3 :: b4 :: bs4)
        else utf8DecodeLoop fuel (b2 :: b3 :: b4 :: bs4)
    else utf8DecodeLoop fuel bs

/-- Lossy UTF-8 decoding of a byte list. -/
def utf8DecodeIgnore (l : List Nat) : List Char :=
  utf8DecodeLoop l.length l

/-! ## The command codec of `glove_controller.py` -/

/-- `max(0, min(180, angle))`. -/
def clampAngle (a : Int) : Int :=
  max 0 (min 180 a)

/-- The frame produced by `RoboticGloveController.set_servo_angle` in
`glove_controller.py` (pure codec part: index guard, angle clamp with a
warning, `chr(ord('A') + servo_index)` letter, decimal angle, then the
`_send_command` delimiter).  `none` models the rejected-index path, where no
frame is produced. -/
def set_servo_angle (servo_index angle : Int) : Option (List Char) :=
  if ¬ (0 ≤ servo_index ∧ servo_index ≤ 5) then none
  else
    let a := if ¬ (0 ≤ angle ∧ angle ≤ 180) then clampAngle angle else angle
    some (appendDelim (Char.ofNat (65 + servo_index.toNat) :: pyIntStr a))

/-- The frame produced by the `main_bleak.py` variant of `set_servo_angle`:
it rejects an out-of-range angle (no clamping) as well as an out-of-range
index, and its `_send_command` formats `f"{command_char}{int(value)}$"`. -/
def set_servo_angle_bleak (servo_index angle : Int) : Option (List Char) :=
  if ¬ (0 ≤ servo_index ∧ servo_index ≤ 5) then none
  else if ¬ (0 ≤ angle ∧ angle ≤ 180) then none
  else some (Char.ofNat (65 + servo_index.toNat) :: pyIntStr angle ++ ['$'])

/-- `servo_chars = ['A', 'B', 'C', 'D', 'E']`. -/
def servo_chars : List Char :=
  ['A', 'B', 'C', 'D', 'E']

/-- The `for i, angle in enumerate(angles)` loop of `set_all_servos_batch`:
each part is `f"{servo_chars[i]}{clamped_angle}$"`. -/
def batchParts : List Int → Nat → List Char
  | [], _ => []
  | a :: rest, i =>
    (servo_chars.getD i 'A' :: pyIntStr (clampAngle a) ++ ['$']) ++ batchParts rest (i + 1)

/-- The frame produced by `RoboticGloveController.set_all_servos_batch`:
`none` models the rejected path for a list whose length is not 5; otherwise
the concatenated parts are handed to `_send_command` as one transmission. -/
def set_all_servos_batch (angles : List Int) : Option (List Char) :=
  if angles.length ≠ 5 then none
  else some (appendDelim (batchParts angles 0))

/-- The transmissions (frames actually handed to the transport, in order)
performed by one `set_servo_angle` call: none on the rejected-index path. -/
def set_servo_transmissions (servo_index angle : Int) : List (List Char) :=
  match set_servo_angle servo_index angle with
  | none => []
  | some f => [f]

/-- The transmissions performed by `set_all_servos_angle`, which loops
`for i in range(5): await self.set_servo_angle(i, angle)`. -/
def set_all_servos_angle (angle : Int) : List (List Char) :=
  (List.range 5).flatMap (fun i => set_servo_transmissions (i : Int) angle)

/-- The transmissions performed by one `set_all_servos_batch` call. -/
def batch_transmissions (angles : List Int) : List (List Char) :=
  match set_all_servos_batch angles with
  | none => []
  | some f => [f]

/-! ## Endpoint resolution (inside `connect` of `glove_controller.py`)

Services and characteristics are the snapshot enumerated by the transport:
an identifier string plus a handle (the handle only serves to distinguish
distinct characteristics that share an identifier). -/

structure BleCharacteristic where
  uuid : List Char
  handle : Nat
deriving DecidableEq

structure BleService where
  uuid : List Char
  handle : Nat
  characteristics : List BleCharacteristic
deriving DecidableEq

/-- Python's `str.upper()` restricted to the ASCII identifiers in play. -/
def upperL (s : List Char) : List Char :=
  s.map Char.toUpper

/-- Module constant `UART_SERVICE_UUID = "FFF0"`. -/
def UART_SERVICE_UUID : List Char :=
  "FFF0".data

/-- Module constant `WRITE_CHARACTERISTIC_UUID`. -/
def WRITE_CHARACTERISTIC_UUID : List Char :=
  "0000FFE1-0000-1000-8000-00805F9B34FB".data

/-- Module constant `READ_CHARACTERISTIC_UUID` (equal to the write one). -/
def READ_CHARACTERISTIC_UUID : List Char :=
  "0000FFE1-0000-1000-8000-00805F9B34FB".data

/-- The expansion `f"0000{target.upper()}-0000-1000-8000-00805F9B34FB"` used
when the configured service identifier is a 4-hex-digit short form. -/
def expand16 (target : List Char) : List Char :=
  "0000".data ++ upperL target ++ "-0000-1000-8000-00805F9B34FB".data

/-- The service-matching condition of the `for service in
self.client.services` loop: case-insensitive equality with the target, or
with its 128-bit base-UUID expansion when the target has length 4. -/
def serviceMatches (target : List Char) (svc : BleService) : Bool :=
  upperL svc.uuid == upperL target
    || (target.length == 4 && upperL svc.uuid == expand16 target)

/-- The loop breaks at the first matching service (`found_service`). -/
def findService (target : List Char) (svcs : List BleService) : Option BleService :=
  svcs.find? (serviceMatches target)

/-- The characteristic-matching condition
`str(char.uuid).upper() == TARGET.upper()`. -/
def charMatches (target : List Char) (c : BleCharacteristic) : Bool :=
  upperL c.uuid == upperL target

/-- The `for char in found_service.characteristics` loop: each match
overwrites `self.write_char_object` / `self.read_char_object` (there is no
`break`), starting from the controller's current values.  Both assignments
are checked independently for every child. -/
def resolveChars (writeT readT : List Char)
    (init : Option BleCharacteristic × Option BleCharacteristic)
    (chars : List BleCharacteristic) :
    Option BleCharacteristic × Option BleCharacteristic :=
  chars.foldl
    (fun acc c =>
      (if charMatches writeT c then some c else acc.1,
       if charMatches readT c then some c else acc.2))
    init

/-- The last child characteristic matching `target`, i.e. the first match in
the reversed child list.  Used to state what the overwrite loop computes. -/
def lastMatch (target : List Char) (chars : List BleCharacteristic) :
    Option BleCharacteristic :=
  chars.reverse.find? (charMatches target)

/-- The first child characteristic matching `target` — the rule the spec
states for the resolver. -/
def firstMatch (target : List Char) (chars : List BleCharacteristic) :
    Option BleCharacteristic :=
  chars.find? (charMatches target)

/-! ## The session-controller state machine of `glove_controller.py`

The mutable fields of `RoboticGloveController`, plus `transportOpen`
tracking whether the transport-level (BLE client) connection is currently
open — the resource the spec calls a "dangling transport" when left open. -/

structure ControllerState where
  is_connected : Bool
  hasClient : Bool
  transportOpen : Bool
  write_char_object : Option BleCharacteristic
  read_char_object : Option BleCharacteristic
deriving DecidableEq

/-- The state produced by `__init__`. -/
def initialState : ControllerState :=
  ⟨false, false, false, none, none⟩

/-- Outcome of the transport interactions during one `connect()` call:
the transport-level `client.connect()` either raises, or succeeds and
service enumeration yields `svcs`, or succeeds and then some fault is
raised (e.g. while enumerating services) before `connect` returns. -/
inductive ConnectOutcome where
  | connectFail
  | servicesOk (svcs : List BleService)
  | postConnectFault
deriving DecidableEq

/-- One `connect()` call of `glove_controller.py`, returning the reported
boolean result and the successor state.  Mirrors the source line by line:
the already-connected early return; `self.client = BleakClient(...)`;
`await self.client.connect()`; the service search; the characteristic
overwrite loop (starting from the current field values, which `connect`
never resets); the two resolution-failure paths that actively call
`client.disconnect()`; and the `except` handler that only clears
`is_connected`. -/
def connectStep (s : ControllerState) (o : ConnectOutcome) : Bool × ControllerState :=
  if s.is_connected ∧ s.hasClient then (true, s)
  else
    let s1 : ControllerState := { s with hasClient := true }
    match o with
    | .connectFail => (false, { s1 with is_connected := false })
    | .postConnectFault => (false, { s1 with transportOpen := true, is_connected := false })
    | .servicesOk svcs =>
      let s2 : ControllerState := { s1 with transportOpen := true, is_connected := true }
      match findService UART_SERVICE_UUID svcs with
      | none => (false, { s2 with transportOpen := false, is_connected := false })
      | some svc =>
        let wr := resolveChars WRITE_CHARACTERISTIC_UUID READ_CHARACTERISTIC_UUID
          (s2.write_char_object, s2.read_char_object) svc.characteristics
        let s3 : ControllerState :=
          { s2 with write_char_object := wr.1, read_char_object := wr.2 }
        if s3.write_char_object = none then
          (false, { s3 with transportOpen := false, is_connected := false })
        else (true, s3)

/-- One `disconnect()` call: closes the transport and clears `is_connected`
when connected, otherwise only prints "Not connected."  It does not touch
`write_char_object` or `read_char_object`. -/
def disconnectStep (s : ControllerState) : ControllerState :=
  if s.is_connected ∧ s.hasClient then
    { s with transportOpen := false, is_connected := false }
  else s

/-- Observable effects of one `_send_command` call. -/
inductive SendEvent where
  | write (bytes : List Nat)
  | errorReport
deriving DecidableEq

/-- One `_send_command(user_input)` call of `glove_controller.py`: when not
connected it prints an error and performs no transport call; otherwise it
appends the delimiter if missing and writes the UTF-8 bytes to the write
characteristic.  It never mutates the controller fields. -/
def send_command (s : ControllerState) (user_input : List Char) :
    ControllerState × List SendEvent :=
  if ¬ (s.is_connected ∧ s.hasClient) then (s, [.errorReport])
  else (s, [.write (utf8EncodeList (appendDelim user_input))])

/-- The controller states reachable from `__init__` through any sequence of
`connect()` / `disconnect()` calls (`_send_command` and `read_data` return
the state unchanged, as `send_command` shows, so they are omitted). -/
inductive Reachable : ControllerState → Prop where
  | init : Reachable initialState
  | connect (s : ControllerState) (o : ConnectOutcome) :
      Reachable s → Reachable (connectStep s o).2
  | disconnect (s : ControllerState) :
      Reachable s → Reachable (disconnectStep s)

/-! ## The replay engine of `src/main.py`

A recorded row carries a delta-time and the five normalized finger values;
both are modelled as rationals (the CSV values are decimal text). -/

/-- One recorded row: `(delta time, five normalized finger values)`. -/
def MotionSample : Type :=
  Rat × List Rat

/-- Python's `int(q)` on a number: truncation toward zero. -/
def pyInt (q : Rat) : Int :=
  q.num.tdiv q.den

/-- The per-row angle computation of `main.py`:
`angle = int(scaled_value * 180); angles.append(max(0, min(180, angle)))`. -/
def sampleToAngles (fingers : List Rat) : List Int :=
  fingers.map (fun v => max 0 (min 180 (pyInt (v * 180))))

/-- The angle mapping as the spec words it: `round(value * 180)` clamped to
`[0, 180]`.  Stated only to compare with `sampleToAngles`. -/
def specRoundAngles (fingers : List Rat) : List Int :=
  fingers.map (fun v => max 0 (min 180 (round (v * 180))))

/-- Module constant `SAMPLE_RATE = 1`. -/
def SAMPLE_RATE : Nat := 1

/-- Observable events of one replay run. -/
inductive REvent where
  | send (angles : List Int)
  | sleep (t : Rat)
  | disconnectGlove
deriving DecidableEq

/-- Is the event a batched servo write? -/
def isSendEvent : REvent → Bool
  | .send _ => true
  | _ => false

/-- The `for index, row in df.iterrows()` loop of `main.py`, with the
delta-time accumulator `time_to_wait` (`ttw`), the running row index and the
count of sends performed so far.  `cancelAt = some k` models an external
cancellation (`asyncio.CancelledError`) delivered while the `k`-th
(0-based) `asyncio.sleep` is pending: the loop body up to and including that
send has run, the wait never completes, the `except` handler prints, and
the `finally` block disconnects — the post-loop neutral reset inside the
`try` block is not reached.  `cancelAt = none` is an uncancelled run: after
the loop the neutral reset `set_all_servos_batch([0, 0, 0, 0, 0])` is
issued and the `finally` block disconnects.  The transport is assumed to
stay connected throughout (the claims under study condition on that). -/
def replayLoop (cancelAt : Option Nat) :
    List MotionSample → Nat → Rat → Nat → List REvent
  | [], _, _, _ => [.send [0, 0, 0, 0, 0], .disconnectGlove]
  | row :: rest, idx, ttw, sends =>
    let ttw2 := ttw + row.1
    if idx % SAMPLE_RATE = 0 then
      let angles := sampleToAngles row.2
      if cancelAt = some sends then
        [.send angles, .disconnectGlove]
      else
        .send angles :: .sleep ttw2 :: replayLoop cancelAt rest (idx + 1) 0 (sends + 1)
    else
      replayLoop cancelAt rest (idx + 1) ttw2 sends

/-- A full replay run over the loaded samples. -/
def replayRun (cancelAt : Option Nat) (samples : List MotionSample) : List REvent :=
  replayLoop cancelAt samples 0 0 0

/-! ## Concrete fixtures used by witnesses and counterexamples -/

/-- A characteristic carrying the configured write/read identifier. -/
def demoWriteChar : BleCharacteristic :=
  ⟨WRITE_CHARACTERISTIC_UUID, 7⟩

/-- A service carrying the configured service identifier and one matching
characteristic. -/
def demoService : BleService :=
  ⟨UART_SERVICE_UUID, 1, [demoWriteChar]⟩

/-- A service with two distinct characteristics that both carry the
configured write identifier. -/
def dupService : BleService :=
  ⟨UART_SERVICE_UUID, 1, [⟨WRITE_CHARACTERISTIC_UUID, 1⟩, ⟨WRITE_CHARACTERISTIC_UUID, 2⟩]⟩

/-- The state after one successful `connect()` from the initial state. -/
def demoReady : ControllerState :=
  (connectStep initialState (.servicesOk [demoService])).2

/-! ## Helper lemmas: decimal formatting -/

theorem digit_toNat (k : Nat) (hk : k < 10) : (Char.ofNat (48 + k)).toNat = 48 + k := by
  interval_cases k <;> decide

theorem natDecAux_mem : ∀ (fuel n : Nat) (acc : List Char) (c : Char),
    c ∈ natDecAux fuel n acc → c ∈ acc ∨ (48 ≤ c.toNat ∧ c.toNat ≤ 57) := by
  intro fuel
  induction fuel with
  | zero => intro n acc c h; simp only [natDecAux] at h; exact Or.inl h
  | succ fuel ih =>
    intro n acc c h
    simp only [natDecAux] at h
    by_cases hn : n = 0
    · rw [if_pos hn] at h; exact Or.inl h
    · rw [if_neg hn] at h
      rcases ih _ _ _ h with hmem | hdig
      · rcases List.mem_cons.mp hmem with hc | hc
        · subst hc
          right
          rw [digit_toNat _ (Nat.mod_lt _ (by omega))]
          have := Nat.mod_lt n (show 0 < 10 by omega)
          omega
        · exact Or.inl hc
      · exact Or.inr hdig

theorem natDec_mem (n : Nat) (c : Char) (h : c ∈ natDec n) :
    48 ≤ c.toNat ∧ c.toNat ≤ 57 := by
  rw [natDec] at h
  by_cases hn : n = 0
  · rw [if_pos hn] at h
    simp only [List.mem_singleton] at h
    subst h; decide
  · rw [if_neg hn] at h
    rcases natDecAux_mem _ _ _ _ h with hmem | hdig
    · simp at hmem
    · exact hdig

theorem natDecAux_ne_nil : ∀ (fuel n : Nat) (acc : List Char),
    acc ≠ [] → natDecAux fuel n acc ≠ [] := by
  intro fuel
  induction fuel with
  | zero => intro n acc h; simpa only [natDecAux] using h
  | succ fuel ih =>
    intro n acc h
    simp only [natDecAux]
    by_cases hn : n = 0
    · rw [if_pos hn]; exact h
    · rw [if_neg hn]; exact ih _ _ (by simp)

theorem natDec_ne_nil (n : Nat) : natDec n ≠ [] := by
  rw [natDec]
  by_cases hn : n = 0
  · rw [if_pos hn]; simp
  · rw [if_neg hn]
    obtain ⟨m, rfl⟩ : ∃ m, n = m + 1 := ⟨n - 1, by omega⟩
    simp only [natDecAux]
    rw [if_neg hn]
    exact natDecAux_ne_nil _ _ _ (by simp)

theorem exists_getLast?_mem (l : List Char) (h : l ≠ []) :
    ∃ c, l.getLast? = some c ∧ c ∈ l :=
  ⟨l.getLast h, List.getLast?_eq_getLast_of_ne_nil h, List.getLast_mem h⟩

theorem getLast?_cons_of_ne_nil (c : Char) (l : List Char) (h : l ≠ []) :
    (c :: l).getLast? = l.getLast? := by
  cases l with
  | nil => exact absurd rfl h
  | cons x xs => exact List.getLast?_cons_cons

/-! ## Helper lemmas: framing -/

theorem appendDelim_cons_natDec (c : Char) (n : Nat) :
    appendDelim (c :: natDec n) = c :: natDec n ++ ['$'] := by
  rw [appendDelim, getLast?_cons_of_ne_nil _ _ (natDec_ne_nil n)]
  obtain ⟨d, hd, hmem⟩ := exists_getLast?_mem _ (natDec_ne_nil n)
  have hdig := natDec_mem n d hmem
  have hne : d ≠ '$' := by
    intro hEq
    subst hEq
    revert hdig
    decide
  rw [hd, if_neg (by simpa using hne)]

theorem getLast?_part_dollar (c : Char) (l : List Char) :
    (c :: l ++ ['$']).getLast? = some '$' := by
  rw [show c :: l ++ ['$'] = (c :: l) ++ ['$'] from by simp]
  exact List.getLast?_concat _

theorem getLast?_append_dollar (l1 l2 : List Char) (h : l2.getLast? = some '$') :
    (l1 ++ l2).getLast? = some '$' := by
  have hne : l2 ≠ [] := by
    intro hEq
    subst hEq
    simp at h
  rw [List.getLast?_append_of_ne_nil _ hne, h]

theorem appendDelim_of_dollar (s : List Char) (h : s.getLast? = some '$') :
    appendDelim s = s := by
  rw [appendDelim, if_pos h]

/-! ## Helper lemmas: UTF-8 round trip on ASCII text -/

theorem utf8EncodeChar_ascii (c : Char) (h : c.toNat < 128) :
    utf8EncodeChar c = [c.toNat] := by
  rw [utf8EncodeChar]
  simp [h]

theorem utf8DecodeLoop_ascii : ∀ (l : List Char), (∀ c ∈ l, c.toNat < 128) →
    utf8DecodeLoop (utf8EncodeList l).length (utf8EncodeList l) = l := by
  intro l
  induction l with
  | nil => intro _; simp [utf8EncodeList, utf8DecodeLoop]
  | cons c l ih =>
    intro h
    have hc : c.toNat < 128 := h c (by simp)
    have hl : ∀ x ∈ l, x.toNat < 128 := fun x hx => h x (by simp [hx])
    rw [show utf8EncodeList (c :: l) = c.toNat :: utf8EncodeList l from by
      simp [utf8EncodeList, utf8EncodeChar_ascii c hc]]
    simp only [List.length_cons, utf8DecodeLoop]
    rw [if_pos hc, Char.ofNat_toNat, ih hl]

theorem utf8_roundtrip_ascii (l : List Char) (h : ∀ c ∈ l, c.toNat < 128) :
    utf8DecodeIgnore (utf8EncodeList l) = l :=
  utf8DecodeLoop_ascii l h

/-! ## Helper lemmas: clamping and the single-servo frame -/

theorem clampAngle_nonneg (a : Int) : 0 ≤ clampAngle a :=
  le_max_left 0 _

theorem clampAngle_of_mem (a : Int) (h0 : 0 ≤ a) (h180 : a ≤ 180) : clampAngle a = a := by
  simp only [clampAngle]
  omega

theorem clampAngle_of_gt (a : Int) (h : 180 < a) : clampAngle a = 180 := by
  simp only [clampAngle]
  omega

theorem clampAngle_of_lt (a : Int) (h : a < 0) : clampAngle a = 0 := by
  simp only [clampAngle]
  omega

theorem pyIntStr_nonneg (n : Int) (h : 0 ≤ n) : pyIntStr n = natDec n.toNat := by
  rw [pyIntStr, if_neg (by omega)]

theorem letter_ascii (i : Int) (h0 : 0 ≤ i) (h5 : i ≤ 5) :
    (Char.ofNat (65 + i.toNat)).toNat < 128 := by
  obtain ⟨k, hk, hik⟩ : ∃ k : Nat, k ≤ 5 ∧ i.toNat = k := ⟨i.toNat, by omega, rfl⟩
  rw [hik]
  interval_cases k <;> decide

theorem set_servo_angle_eq (i a : Int) (h0 : 0 ≤ i) (h5 : i ≤ 5) :
    set_servo_angle i a
      = some (Char.ofNat (65 + i.toNat) :: natDec (clampAngle a).toNat ++ ['$']) := by
  rw [set_servo_angle, if_neg (not_not_intro ⟨h0, h5⟩)]
  by_cases ha : 0 ≤ a ∧ a ≤ 180
  · rw [if_neg (not_not_intro ha)]
    show some (appendDelim (Char.ofNat (65 + i.toNat) :: pyIntStr a)) = _
    rw [clampAngle_of_mem a ha.1 ha.2, pyIntStr_nonneg a ha.1, appendDelim_cons_natDec]
  · rw [if_pos ha]
    show some (appendDelim (Char.ofNat (65 + i.toNat) :: pyIntStr (clampAngle a))) = _
    rw [pyIntStr_nonneg _ (clampAngle_nonneg a), appendDelim_cons_natDec]

theorem set_all_servos_batch_eq (a0 a1 a2 a3 a4 : Int) :
    set_all_servos_batch [a0, a1, a2, a3, a4]
      = some (('A' :: natDec (clampAngle a0).toNat ++ ['$'])
           ++ ('B' :: natDec (clampAngle a1).toNat ++ ['$'])
           ++ ('C' :: natDec (clampAngle a2).toNat ++ ['$'])
           ++ ('D' :: natDec (clampAngle a3).toNat ++ ['$'])
           ++ ('E' :: natDec (clampAngle a4).toNat ++ ['$'])) := by
  rw [set_all_servos_batch, if_neg (by simp)]
  have hparts : batchParts [a0, a1, a2, a3, a4] 0
      = ('A' :: natDec (clampAngle a0).toNat ++ ['$'])
      ++ ('B' :: natDec (clampAngle a1).toNat ++ ['$'])
      ++ ('C' :: natDec (clampAngle a2).toNat ++ ['$'])
      ++ ('D' :: natDec (clampAngle a3).toNat ++ ['$'])
      ++ ('E' :: natDec (clampAngle a4).toNat ++ ['$']) := by
    simp only [batchParts, servo_chars, List.getD_cons_zero, List.getD_cons_succ,
      List.append_nil, List.append_assoc, List.cons_append,
      pyIntStr_nonneg _ (clampAngle_nonneg _)]
  rw [hparts, appendDelim_of_dollar]
  apply getLast?_append_dollar
  exact getLast?_part_dollar _ _

theorem set_all_servos_angle_eq (a : Int) : set_all_servos_angle a =
    ['A' :: natDec (clampAngle a).toNat ++ ['$'],
     'B' :: natDec (clampAngle a).toNat ++ ['$'],
     'C' :: natDec (clampAngle a).toNat ++ ['$'],
     'D' :: natDec (clampAngle a).toNat ++ ['$'],
     'E' :: natDec (clampAngle a).toNat ++ ['$']] := by
  have h0 := set_servo_angle_eq 0 a (by decide) (by decide)
  have h1 := set_servo_angle_eq 1 a (by decide) (by decide)
  have h2 := set_servo_angle_eq 2 a (by decide) (by decide)
  have h3 := set_servo_angle_eq 3 a (by decide) (by decide)
  have h4 := set_servo_angle_eq 4 a (by decide) (by decide)
  simp only [set_all_servos_angle, set_servo_transmissions,
    show List.range 5 = [0, 1, 2, 3, 4] from by decide,
    List.flatMap_cons, List.flatMap_nil, Nat.cast_zero, Nat.cast_one, Nat.cast_ofNat,
    h0, h1, h2, h3, h4]
  simp [show Char.ofNat (65 + (0 : Int).toNat) = 'A' from by decide,
    show Char.ofNat (65 + (1 : Int).toNat) = 'B' from by decide,
    show Char.ofNat (65 + (2 : Int).toNat) = 'C' from by decide,
    show Char.ofNat (65 + (3 : Int).toNat) = 'D' from by decide,
    show Char.ofNat (65 + (4 : Int).toNat) = 'E' from by decide]

/-! ## Claim C6: encode/decode round trip for in-range servo commands -/

/-- C6 (confirmed): for every servo index `i` in `[0, 5]` and angle `a` in
`[0, 180]`, `set_servo_angle` produces exactly the wire frame
`letter(i) ++ decimal(a) ++ "$"` (with `letter(i) = chr(ord A + i)`), and
the lossy UTF-8 decode of that frame's UTF-8 encoding returns exactly that
text: decode is a left inverse of encode on in-range servo commands. -/
theorem C6_encode_decode_roundtrip : ∀ i a : Int, 0 ≤ i → i ≤ 5 → 0 ≤ a → a ≤ 180 →
    set_servo_angle i a = some (Char.ofNat (65 + i.toNat) :: natDec a.toNat ++ ['$'])
    ∧ utf8DecodeIgnore (utf8EncodeList (Char.ofNat (65 + i.toNat) :: natDec a.toNat ++ ['$']))
      = Char.ofNat (65 + i.toNat) :: natDec a.toNat ++ ['$'] := by
  intro i a h0 h5 ha0 ha180
  constructor
  · rw [set_servo_angle_eq i a h0 h5, clampAngle_of_mem a ha0 ha180]
  · apply utf8_roundtrip_ascii
    intro c hc
    rcases List.mem_cons.mp hc with rfl | hc2
    · exact letter_ascii i h0 h5
    · rcases List.mem_append.mp hc2 with hd | hdl
      · have := natDec_mem _ _ hd
        omega
      · simp only [List.mem_singleton] at hdl
        subst hdl
        decide

/-- Witness for C6 at `i = 2`, `a = 90`: the frame is `"C90$"` and decoding
its encoding gives back `"C90$"`. -/
theorem C6_encode_decode_roundtrip_witness :
    set_servo_angle 2 90 = some ("C90$".data)
    ∧ utf8DecodeIgnore (utf8EncodeList ("C90$".data)) = "C90$".data := by
  have h := C6_encode_decode_roundtrip 2 90 (by decide) (by decide) (by decide) (by decide)
  constructor
  · rw [h.1]
    decide
  · rw [show ("C90$".data)
        = Char.ofNat (65 + (2 : Int).toNat) :: natDec (90 : Int).toNat ++ ['$'] from by decide]
    exact h.2

/-! ## Claim C7: batched frame layout -/

/-- C7 (confirmed): for every 5-element angle list, `set_all_servos_batch`
produces the concatenation of five separately `$`-delimited sub-frames with
letters `A`–`E` in index order, each carrying that index's angle clamped to
`[0, 180]`, as one transmission; in particular the batch for
`[10, 20, 30, 40, 50]` is exactly `"A10$B20$C30$D40$E50$"`. -/
theorem C7_batch_frame_layout : ∀ a0 a1 a2 a3 a4 : Int,
    set_all_servos_batch [a0, a1, a2, a3, a4]
      = some (('A' :: natDec (clampAngle a0).toNat ++ ['$'])
           ++ ('B' :: natDec (clampAngle a1).toNat ++ ['$'])
           ++ ('C' :: natDec (clampAngle a2).toNat ++ ['$'])
           ++ ('D' :: natDec (clampAngle a3).toNat ++ ['$'])
           ++ ('E' :: natDec (clampAngle a4).toNat ++ ['$']))
    ∧ set_all_servos_batch [10, 20, 30, 40, 50] = some ("A10$B20$C30$D40$E50$".data) :=
  fun a0 a1 a2 a3 a4 => ⟨set_all_servos_batch_eq a0 a1 a2 a3 a4, by decide⟩

/-! ## Claim C8: clamping versus rejection in the single-servo encoders -/

/-- C8 (amended): in `glove_controller.py`, an out-of-range angle is clamped
to the nearest bound and a frame is still produced (`200 ↦ "...180$"`,
`-5 ↦ "...0$"`), and an out-of-range servo index (outside `[0, 5]`) is
rejected with no frame; but in the `main_bleak.py` variant an out-of-range
angle is likewise rejected with no frame rather than clamped. -/
theorem C8_clamp_and_reject :
    (∀ i a : Int, 0 ≤ i → i ≤ 5 → 180 < a →
       set_servo_angle i a = some (Char.ofNat (65 + i.toNat) :: ['1', '8', '0', '$']))
    ∧ (∀ i a : Int, 0 ≤ i → i ≤ 5 → a < 0 →
       set_servo_angle i a = some (Char.ofNat (65 + i.toNat) :: ['0', '$']))
    ∧ (∀ i a : Int, ¬ (0 ≤ i ∧ i ≤ 5) →
       set_servo_angle i a = none ∧ set_servo_angle_bleak i a = none)
    ∧ (∀ i a : Int, 0 ≤ i → i ≤ 5 → ¬ (0 ≤ a ∧ a ≤ 180) →
       set_servo_angle_bleak i a = none) := by
  refine ⟨?_, ?_, ?_, ?_⟩
  · intro i a h0 h5 hgt
    rw [set_servo_angle_eq i a h0 h5, clampAngle_of_gt a hgt]
    rw [show ((180 : Int)).toNat = 180 from by decide,
      show natDec 180 = ['1', '8', '0'] from by decide]
    simp
  · intro i a h0 h5 hlt
    rw [set_servo_angle_eq i a h0 h5, clampAngle_of_lt a hlt]
    rw [show ((0 : Int)).toNat = 0 from by decide,
      show natDec 0 = ['0'] from by decide]
    simp
  · intro i a hbad
    exact ⟨by rw [set_servo_angle, if_pos hbad], by rw [set_servo_angle_bleak, if_pos hbad]⟩
  · intro i a h0 h5 hbadA
    rw [set_servo_angle_bleak, if_neg (not_not_intro ⟨h0, h5⟩), if_pos hbadA]

/-- Witness for C8: angle 200 produces `"A180$"`, angle -5 produces
`"A0$"`, index 6 is rejected, and the bleak variant rejects angle 200. -/
theorem C8_clamp_and_reject_witness :
    set_servo_angle 0 200 = some ("A180$".data)
    ∧ set_servo_angle 0 (-5) = some ("A0$".data)
    ∧ set_servo_angle 6 90 = none
    ∧ set_servo_angle_bleak 0 200 = none := by
  refine ⟨?_, ?_, ?_, ?_⟩
  · rw [C8_clamp_and_reject.1 0 200 (by decide) (by decide) (by decide)]
    decide
  · rw [C8_clamp_and_reject.2.1 0 (-5) (by decide) (by decide) (by decide)]
    decide
  · exact (C8_clamp_and_reject.2.2.1 6 90 (by decide)).1
  · exact C8_clamp_and_reject.2.2.2 0 200 (by decide) (by decide) (by decide)

/-- Counterexample for C8 as stated: the claim asserts that for every angle
outside `[0, 180]` the single-servo encoder still produces a frame, but the
`main_bleak.py` encoder (one of the claim's cited sources) produces no frame
at angle 200. -/
theorem C8_bleak_rejects_oob_angle : set_servo_angle_bleak 0 200 = none := by
  decide

/-! ## Claim C10: five single-servo calls refine one batch call -/

/-- C10 (confirmed): for every angle `a`, `set_all_servos_angle a`
transmits exactly the same total character and byte sequence, in the same
order, as `set_all_servos_batch [a, a, a, a, a]` — the five sub-frames
`"A<c>$"`…`"E<c>$"` with `c` the clamped angle — differing only in being
issued as five transmissions instead of one. -/
theorem C10_sequential_refines_batch : ∀ a : Int,
    (set_all_servos_angle a).flatten = (batch_transmissions [a, a, a, a, a]).flatten
    ∧ (set_all_servos_angle a).length = 5
    ∧ (batch_transmissions [a, a, a, a, a]).length = 1
    ∧ ((set_all_servos_angle a).map utf8EncodeList).flatten
        = ((batch_transmissions [a, a, a, a, a]).map utf8EncodeList).flatten := by
  intro a
  have hb : batch_transmissions [a, a, a, a, a]
      = [('A' :: natDec (clampAngle a).toNat ++ ['$'])
       ++ ('B' :: natDec (clampAngle a).toNat ++ ['$'])
       ++ ('C' :: natDec (clampAngle a).toNat ++ ['$'])
       ++ ('D' :: natDec (clampAngle a).toNat ++ ['$'])
       ++ ('E' :: natDec (clampAngle a).toNat ++ ['$'])] := by
    simp only [batch_transmissions, set_all_servos_batch_eq a a a a a]
  refine ⟨?_, ?_, ?_, ?_⟩
  · rw [set_all_servos_angle_eq, hb]
    simp
  · rw [set_all_servos_angle_eq]
    rfl
  · rw [hb]
    rfl
  · rw [set_all_servos_angle_eq, hb]
    simp [utf8EncodeList]

/-! ## Helper lemmas: the session state machine -/

/-- In every reachable state, being connected implies a resolved write
characteristic object and a transport client are held. -/
theorem reachable_ready_inv {s : ControllerState} (h : Reachable s) :
    s.is_connected = true → s.write_char_object.isSome = true ∧ s.hasClient = true := by
  induction h with
  | init => intro hc; simp [initialState] at hc
  | connect s o _ ih =>
    cases o with
    | connectFail =>
      by_cases hg : s.is_connected ∧ s.hasClient
      · simpa [connectStep, hg] using ih
      · simp [connectStep, hg]
    | postConnectFault =>
      by_cases hg : s.is_connected ∧ s.hasClient
      · simpa [connectStep, hg] using ih
      · simp [connectStep, hg]
    | servicesOk svcs =>
      by_cases hg : s.is_connected ∧ s.hasClient
      · simpa [connectStep, hg] using ih
      · cases hfs : findService UART_SERVICE_UUID svcs with
        | none => simp [connectStep, hg, hfs]
        | some svc =>
          by_cases hw : (resolveChars WRITE_CHARACTERISTIC_UUID READ_CHARACTERISTIC_UUID
              (s.write_char_object, s.read_char_object) svc.characteristics).1 = none
          · simp [connectStep, hg, hfs, hw]
          · simp [connectStep, hg, hfs, hw, Option.isSome_iff_ne_none]
  | disconnect s _ ih =>
    by_cases hg : s.is_connected ∧ s.hasClient
    · simp [disconnectStep, hg]
    · simpa [disconnectStep, hg] using ih

/-! ## Claim C1: endpoint existence versus session state -/

/-- C1 (amended): in every reachable controller state, Ready
(`is_connected`) implies a resolved write endpoint object exists, and
`disconnect()` taken from Ready closes the transport and moves to
Disconnected — but it leaves the write and read characteristic objects
held: the endpoint objects are not cleared on the transition, so "an
endpoint exists if and only if Ready" holds only in the forward
direction. -/
theorem C1_endpoint_lifecycle : ∀ s : ControllerState, Reachable s →
    (s.is_connected = true → s.write_char_object.isSome = true)
    ∧ (s.is_connected = true →
        (disconnectStep s).is_connected = false
        ∧ (disconnectStep s).transportOpen = false
        ∧ (disconnectStep s).write_char_object = s.write_char_object
        ∧ (disconnectStep s).read_char_object = s.read_char_object) := by
  intro s hs
  refine ⟨fun hc => (reachable_ready_inv hs hc).1, fun hc => ?_⟩
  have hcl := (reachable_ready_inv hs hc).2
  simp [disconnectStep, hc, hcl]

/-- Witness for C1 at the state reached by one successful `connect()`. -/
theorem C1_endpoint_lifecycle_witness :
    (demoReady.is_connected = true → demoReady.write_char_object.isSome = true)
    ∧ (demoReady.is_connected = true →
        (disconnectStep demoReady).is_connected = false
        ∧ (disconnectStep demoReady).transportOpen = false
        ∧ (disconnectStep demoReady).write_char_object = demoReady.write_char_object
        ∧ (disconnectStep demoReady).read_char_object = demoReady.read_char_object) :=
  C1_endpoint_lifecycle demoReady
    (Reachable.connect initialState (.servicesOk [demoService]) Reachable.init)

/-- Counterexample for C1 as stated: after connect followed by disconnect
the state is reachable, Disconnected, and still holds the resolved write
characteristic object — so the endpoint-iff-Ready equivalence is false. -/
theorem C1_endpoint_iff_ready_cx : ¬ ∀ s : ControllerState, Reachable s →
    ((s.write_char_object ≠ none) ↔ s.is_connected = true) := by
  intro h
  have hr : Reachable (disconnectStep (connectStep initialState (.servicesOk [demoService])).2) :=
    Reachable.disconnect _ (Reachable.connect initialState (.servicesOk [demoService]) Reachable.init)
  have h2 := h _ hr
  exact absurd (h2.mp (by decide)) (by decide)

/-! ## Claim C2: resolution failure closes the transport -/

/-- C2 (amended): when the transport-level connect succeeds and service
enumeration completes, every failing `connect()` run — no matching service,
or no write characteristic — actively closes the transport before reporting
failure and ends Disconnected; however, a fault raised after the transport
connection opens (modelled by `ConnectOutcome.postConnectFault`) reports
failure and Disconnected while leaving the transport connection open. -/
theorem C2_resolution_failure_closes_transport : ∀ (s : ControllerState) (svcs : List BleService),
    s.is_connected = false →
    (connectStep s (.servicesOk svcs)).1 = false →
      (connectStep s (.servicesOk svcs)).2.transportOpen = false
      ∧ (connectStep s (.servicesOk svcs)).2.is_connected = false := by
  intro s svcs hconn hres
  have hg : ¬ (s.is_connected ∧ s.hasClient) := by simp [hconn]
  cases hfs : findService UART_SERVICE_UUID svcs with
  | none => simp [connectStep, hg, hfs]
  | some svc =>
    by_cases hw : (resolveChars WRITE_CHARACTERISTIC_UUID READ_CHARACTERISTIC_UUID
        (s.write_char_object, s.read_char_object) svc.characteristics).1 = none
    · simp [connectStep, hg, hfs, hw]
    · simp [connectStep, hg, hfs, hw] at hres

/-- Witness for C2 on an empty service list: the run fails and ends with
the transport closed and the controller Disconnected. -/
theorem C2_resolution_failure_closes_transport_witness :
    (connectStep initialState (.servicesOk [])).2.transportOpen = false
    ∧ (connectStep initialState (.servicesOk [])).2.is_connected = false :=
  C2_resolution_failure_closes_transport initialState [] (by decide) (by decide)

/-- Counterexample for C2 as stated: a fault raised after the transport
connection opens (a case the claim includes) reports failure with the
controller Disconnected but leaves the transport connection open — the
`except` handler of `connect` only clears `is_connected`. -/
theorem C2_post_connect_fault_cx :
    (connectStep initialState .postConnectFault).1 = false
    ∧ (connectStep initialState .postConnectFault).2.is_connected = false
    ∧ (connectStep initialState .postConnectFault).2.transportOpen = true := by
  decide

/-! ## Claim C5: which characteristic the resolver picks -/

/-- The overwrite loop computes, for each role independently, the last
matching child (with the controller's previous value as fallback). -/
theorem resolveChars_eq (wT rT : List Char) (chars : List BleCharacteristic) :
    ∀ init, resolveChars wT rT init chars
      = ((lastMatch wT chars).or init.1, (lastMatch rT chars).or init.2) := by
  induction chars with
  | nil => intro init; simp [resolveChars, lastMatch]
  | cons c l ih =>
    intro init
    rw [show resolveChars wT rT init (c :: l)
        = resolveChars wT rT
            (if charMatches wT c then some c else init.1,
             if charMatches rT c then some c else init.2) l from rfl]
    rw [ih]
    have key : ∀ t : List Char, ∀ i : Option BleCharacteristic,
        (lastMatch t (c :: l)).or i
          = (lastMatch t l).or (if charMatches t c then some c else i) := by
      intro t i
      rw [lastMatch, show (c :: l).reverse = l.reverse ++ [c] from by simp,
        List.find?_append, List.find?_singleton]
      rw [lastMatch]
      cases hf : l.reverse.find? (charMatches t) with
      | none => by_cases hc : charMatches t c <;> simp [hc, Option.or]
      | some x => simp [Option.or]
    rw [key, key]

/-- C5 (amended): within the first service matching the configured service
identifier, the write endpoint chosen by resolution is the LAST child
characteristic whose identifier equals the configured write identifier (the
loop overwrites on every match, with no break), and the read endpoint is
independently the LAST child matching the configured read identifier; when
the two configured identifiers are equal, the same characteristic serves
both roles. -/
theorem C5_resolver_last_match : ∀ (target wT rT : List Char)
    (svcs : List BleService) (svc : BleService),
    findService target svcs = some svc →
      resolveChars wT rT (none, none) svc.characteristics
        = (lastMatch wT svc.characteristics, lastMatch rT svc.characteristics)
      ∧ (wT = rT →
          (resolveChars wT rT (none, none) svc.characteristics).1
            = (resolveChars wT rT (none, none) svc.characteristics).2) := by
  intro target wT rT svcs svc _
  have h := resolveChars_eq wT rT svc.characteristics (none, none)
  rw [Option.or_none, Option.or_none] at h
  exact ⟨h, fun hEq => by rw [h, hEq]⟩

/-- Witness for C5 on the configured identifiers, where the write and read
identifiers are equal and one characteristic serves both roles. -/
theorem C5_resolver_last_match_witness :
    findService UART_SERVICE_UUID [demoService] = some demoService
    ∧ resolveChars WRITE_CHARACTERISTIC_UUID READ_CHARACTERISTIC_UUID (none, none)
        demoService.characteristics
      = (lastMatch WRITE_CHARACTERISTIC_UUID demoService.characteristics,
         lastMatch READ_CHARACTERISTIC_UUID demoService.characteristics)
    ∧ (resolveChars WRITE_CHARACTERISTIC_UUID READ_CHARACTERISTIC_UUID (none, none)
        demoService.characteristics).1
      = (resolveChars WRITE_CHARACTERISTIC_UUID READ_CHARACTERISTIC_UUID (none, none)
        demoService.characteristics).2 := by
  have hfs : findService UART_SERVICE_UUID [demoService] = some demoService := by decide
  have h := C5_resolver_last_match UART_SERVICE_UUID WRITE_CHARACTERISTIC_UUID
    READ_CHARACTERISTIC_UUID [demoService] demoService hfs
  exact ⟨hfs, h.1, h.2 rfl⟩

/-- Counterexample for C5 as stated: in a matching service with two
characteristics that both carry the configured write identifier, resolution
keeps the last one, not the first child the claim names. -/
theorem C5_resolver_first_match_cx :
    findService UART_SERVICE_UUID [dupService] = some dupService
    ∧ (resolveChars WRITE_CHARACTERISTIC_UUID READ_CHARACTERISTIC_UUID (none, none)
        dupService.characteristics).1
      ≠ firstMatch WRITE_CHARACTERISTIC_UUID dupService.characteristics := by
  decide

/-! ## Claim C9: send gating outside Ready -/

/-- C9 (confirmed): a command submitted while the controller is not
connected (state Idle or Disconnected) makes `_send_command` report an
error and perform no transport write, leaving the controller state
unchanged. -/
theorem C9_send_outside_ready : ∀ (s : ControllerState) (input : List Char),
    s.is_connected = false → send_command s input = (s, [SendEvent.errorReport]) := by
  intro s input h
  simp [send_command, h]

/-- Witness for C9 at the initial (Idle) state with input `"A90"`. -/
theorem C9_send_outside_ready_witness :
    send_command initialState ("A90".data) = (initialState, [SendEvent.errorReport]) :=
  C9_send_outside_ready initialState ("A90".data) rfl

/-! ## Helper lemmas: the replay engine -/

/-- Python's `int()` truncation agrees with the floor on nonnegative
rationals. -/
theorem pyInt_eq_floor (q : Rat) (hq : 0 ≤ q) : pyInt q = ⌊q⌋ := by
  rw [pyInt, Rat.floor_def]
  exact Int.tdiv_eq_ediv (Rat.num_nonneg.mpr hq) (by positivity)

/-- An uncancelled replay run ends with the neutral reset followed by the
disconnect, after one data send per sample. -/
theorem replayLoop_none_reset (samples : List MotionSample) :
    ∀ (idx : Nat) (ttw : Rat) (sends : Nat),
    ∃ pre, replayLoop none samples idx ttw sends
        = pre ++ [.send [0, 0, 0, 0, 0], .disconnectGlove]
      ∧ pre.countP isSendEvent = samples.length := by
  induction samples with
  | nil => intro idx ttw sends; exact ⟨[], rfl, rfl⟩
  | cons row rest ih =>
    intro idx ttw sends
    obtain ⟨pre, hpre, hcount⟩ := ih (idx + 1) 0 (sends + 1)
    refine ⟨.send (sampleToAngles row.2) :: .sleep (ttw + row.1) :: pre, ?_, ?_⟩
    · simp [replayLoop, SAMPLE_RATE, Nat.mod_one, hpre]
    · simp [List.countP_cons, isSendEvent, hcount]

/-- A replay run cancelled during the `k`-th wait ends with the `k`-th data
send followed directly by the disconnect: the events before it hold exactly
`k` sends, and nothing after it but the disconnect. -/
theorem replayLoop_cancel (samples : List MotionSample) :
    ∀ (k s idx : Nat) (ttw : Rat) (h : k < samples.length),
    ∃ pre, replayLoop (some (s + k)) samples idx ttw s
        = pre ++ [.send (sampleToAngles (samples.get ⟨k, h⟩).2), .disconnectGlove]
      ∧ pre.countP isSendEvent = k := by
  induction samples with
  | nil => intro k s idx ttw h; simp at h
  | cons row rest ih =>
    intro k s idx ttw h
    cases k with
    | zero =>
      refine ⟨[], ?_, rfl⟩
      simp [replayLoop, SAMPLE_RATE, Nat.mod_one]
    | succ k' =>
      have h' : k' < rest.length := by simpa using h
      obtain ⟨pre, hpre, hcount⟩ := ih k' (s + 1) (idx + 1) 0 h'
      refine ⟨.send (sampleToAngles row.2) :: .sleep (ttw + row.1) :: pre, ?_, ?_⟩
      · rw [show s + (k' + 1) = (s + 1) + k' from by omega]
        simp only [replayLoop, SAMPLE_RATE]
        rw [if_pos (show idx % 1 = 0 from by omega)]
        rw [if_neg (show ¬ (some (s + 1 + k') = some s) from by simp; omega)]
        simp [hpre]
      · simp [List.countP_cons, isSendEvent, hcount]

/-! ## Claim C3: the normalized-value-to-angle mapping -/

/-- C3 (amended): the replay engine maps each normalized value `v` to
`int(v * 180)` — truncation toward zero, which equals `⌊v * 180⌋` for the
nonnegative normalized values — clamped into `[0, 180]`, before issuing the
batched command (it truncates rather than rounding to nearest); on the
spec's replay example the issued traces agree, since `0 * 180` and
`1 * 180` are exact. -/
theorem C3_replay_truncates :
    (∀ v : Rat, 0 ≤ v → pyInt (v * 180) = ⌊v * 180⌋)
    ∧ (∀ (dt : Rat) (fingers : List Rat) (rest : List MotionSample),
        replayRun none ((dt, fingers) :: rest)
          = .send (sampleToAngles fingers) :: .sleep dt :: replayLoop none rest 1 0 1)
    ∧ replayRun none [(mkRat 1 2, [0, 0, 0, 0, 0]), (mkRat 3 10, [1, 1, 1, 1, 1])]
        = [.send [0, 0, 0, 0, 0], .sleep (mkRat 1 2), .send [180, 180, 180, 180, 180],
           .sleep (mkRat 3 10), .send [0, 0, 0, 0, 0], .disconnectGlove] := by
  refine ⟨?_, ?_, ?_⟩
  · intro v hv
    exact pyInt_eq_floor _ (by positivity)
  · intro dt fingers rest
    simp [replayRun, replayLoop, SAMPLE_RATE]
  · simp [replayRun, replayLoop, sampleToAngles, SAMPLE_RATE]
    norm_num [pyInt_eq_floor, Rat.mkRat_eq_div]

/-- Witness for C3 at `v = 1/2`: the truncated product equals its floor,
namely 90. -/
theorem C3_replay_truncates_witness :
    pyInt ((mkRat 1 2) * 180) = ⌊(mkRat 1 2) * 180⌋
    ∧ pyInt ((mkRat 1 2) * 180) = 90 := by
  have h := C3_replay_truncates.1 (mkRat 1 2) (by norm_num [Rat.mkRat_eq_div])
  refine ⟨h, ?_⟩
  rw [h]
  norm_num [Rat.mkRat_eq_div]

/-- Counterexample for C3 as stated: at `v = 1/200` the engine issues angle
`int(0.9) = 0`, while the claimed mapping `round(v * 180)` demands 1 — the
code truncates instead of rounding to the nearest integer. -/
theorem C3_round_mapping_cx :
    replayRun none [(1, [mkRat 1 200, 0, 0, 0, 0])]
      = [.send [0, 0, 0, 0, 0], .sleep 1, .send [0, 0, 0, 0, 0], .disconnectGlove]
    ∧ specRoundAngles [mkRat 1 200, 0, 0, 0, 0] = [1, 0, 0, 0, 0] := by
  constructor
  · simp [replayRun, replayLoop, sampleToAngles, SAMPLE_RATE]
    norm_num [pyInt_eq_floor, Rat.mkRat_eq_div]
  · norm_num [specRoundAngles, round_eq, Rat.mkRat_eq_div]

/-! ## Claim C4: cancellation and the neutral reset -/

/-- C4 (amended): an uncancelled replay run performs one data send per
sample and ends with the neutral reset `SetAllServos(0,0,0,0,0)` followed by
the disconnect; but a run cancelled mid-wait (while the transport remains
connected) terminates with the interrupted wait's data send followed
directly by the disconnect — exactly `k + 1` sends happen in total and the
neutral reset is NOT issued on the cancellation path. -/
theorem C4_cancel_skips_reset : ∀ samples : List MotionSample,
    ((replayRun none samples).getLast? = some .disconnectGlove
      ∧ (replayRun none samples).dropLast.getLast? = some (.send [0, 0, 0, 0, 0])
      ∧ (replayRun none samples).countP isSendEvent = samples.length + 1)
    ∧ ∀ (k : Nat) (h : k < samples.length),
        (replayRun (some k) samples).getLast? = some .disconnectGlove
        ∧ (replayRun (some k) samples).dropLast.getLast?
            = some (.send (sampleToAngles (samples.get ⟨k, h⟩).2))
        ∧ (replayRun (some k) samples).countP isSendEvent = k + 1 := by
  intro samples
  constructor
  · obtain ⟨pre, hpre, hcount⟩ := replayLoop_none_reset samples 0 0 0
    rw [show replayRun none samples = replayLoop none samples 0 0 0 from rfl, hpre]
    rw [show pre ++ [REvent.send [0, 0, 0, 0, 0], REvent.disconnectGlove]
        = (pre ++ [REvent.send [0, 0, 0, 0, 0]]) ++ [REvent.disconnectGlove] from by simp]
    refine ⟨List.getLast?_concat _, ?_, ?_⟩
    · rw [List.dropLast_concat, List.getLast?_concat]
    · simp [List.countP_append, List.countP_cons, isSendEvent, hcount]
  · intro k h
    obtain ⟨pre, hpre, hcount⟩ := replayLoop_cancel samples k 0 0 0 h
    rw [Nat.zero_add] at hpre
    rw [show replayRun (some k) samples = replayLoop (some k) samples 0 0 0 from rfl, hpre]
    rw [show pre ++ [REvent.send (sampleToAngles (samples.get ⟨k, h⟩).2), REvent.disconnectGlove]
        = (pre ++ [REvent.send (sampleToAngles (samples.get ⟨k, h⟩).2)])
          ++ [REvent.disconnectGlove] from by simp]
    refine ⟨List.getLast?_concat _, ?_, ?_⟩
    · rw [List.dropLast_concat, List.getLast?_concat]
    · simp [List.countP_append, List.countP_cons, isSendEvent, hcount]

/-- Witness for C4 on a one-sample recording cancelled during the first
wait: the trace ends with that sample's send and the disconnect, and only
one send happens. -/
theorem C4_cancel_skips_reset_witness :
    (replayRun (some 0) [((1 : Rat), [1, 1, 1, 1, 1])]).getLast? = some .disconnectGlove
    ∧ (replayRun (some 0) [((1 : Rat), [1, 1, 1, 1, 1])]).dropLast.getLast?
        = some (.send (sampleToAngles [1, 1, 1, 1, 1]))
    ∧ (replayRun (some 0) [((1 : Rat), [1, 1, 1, 1, 1])]).countP isSendEvent = 1 := by
  have h := (C4_cancel_skips_reset [((1 : Rat), [1, 1, 1, 1, 1])]).2 0 (by norm_num)
  simpa using h

/-- Counterexample for C4 as stated: in a run cancelled mid-wait with the
transport still connected, the neutral reset command never appears in the
trace — the post-loop reset sits inside the `try` block and the
`CancelledError` handler skips straight to the `finally` disconnect. -/
theorem C4_cancel_reset_cx :
    REvent.send [0, 0, 0, 0, 0] ∉ replayRun (some 0) [((1 : Rat), [1, 1, 1, 1, 1])] := by
  have heval : replayRun (some 0) [((1 : Rat), [1, 1, 1, 1, 1])]
      = [.send [180, 180, 180, 180, 180], .disconnectGlove] := by
    simp [replayRun, replayLoop, sampleToAngles, SAMPLE_RATE]
    norm_num [pyInt_eq_floor]
  rw [heval]
  decide

end Glove
